import Mathlib

/-!
Verification of the `Prompt`/`Editor` scripting-API contract declared in
`src/Prompt.d.ts` and `src/Editor.d.ts`.  The repository consists of ambient
TypeScript declarations only: every method body is serviced by the host
application.  Declaration-level facts (method lists, return types, option
enumerations) are embedded directly from the source files; the dynamic
behaviour of the host (what `show`, `arrange`, `dictate`, the selection
accessors do) is modelled from the specification, since no implementation is
present under `src/`.
-/

namespace Drafts

/-- The `keyboardTypes` union from `Prompt.d.ts` lines 1-10: one constructor
per string literal of the union. -/
inductive keyboardTypes
  | default
  | numbersAndPunctuation
  | numberPad
  | phonePad
  | namePhonePad
  | emailAddress
  | decimalPad
  | webSearch
  | URL
deriving DecidableEq

/-- The string literal each `keyboardTypes` alternative stands for. -/
def keyboardTypes.toStr : keyboardTypes → String
  | .default => "default"
  | .numbersAndPunctuation => "numbersAndPunctuation"
  | .numberPad => "numberPad"
  | .phonePad => "phonePad"
  | .namePhonePad => "namePhonePad"
  | .emailAddress => "emailAddress"
  | .decimalPad => "decimalPad"
  | .webSearch => "webSearch"
  | .URL => "URL"

/-- All alternatives of `keyboardTypes`, in source order. -/
def keyboardTypes.all : List keyboardTypes :=
  [.default, .numbersAndPunctuation, .numberPad, .phonePad, .namePhonePad,
   .emailAddress, .decimalPad, .webSearch, .URL]

/-- The `capitalizationTypes` union from `Prompt.d.ts` line 12. -/
inductive capitalizationTypes
  | none
  | sentences
  | words
deriving DecidableEq

/-- The string literal each `capitalizationTypes` alternative stands for. -/
def capitalizationTypes.toStr : capitalizationTypes → String
  | .none => "none"
  | .sentences => "sentences"
  | .words => "words"

/-- All alternatives of `capitalizationTypes`, in source order. -/
def capitalizationTypes.all : List capitalizationTypes :=
  [.none, .sentences, .words]

/-- A field descriptor appended by one of the `addX` calls of `Prompt.d.ts`
(lines 75-181).  Each constructor carries exactly the data of the
corresponding method's parameters (option dictionaries that play no role in
the claims are omitted; a JavaScript `Date` is embedded as an `Int` epoch
value). -/
inductive PromptField
  | label (name lbl : String)
  | textField (name lbl initialText : String)
  | textView (name lbl initialText : String)
  | passwordField (name lbl initialValue : String)
  | switchField (name lbl : String) (initialValue : Bool)
  | datePicker (name lbl : String) (initialDate : Int)
  | picker (name lbl : String) (columns : List (List String))
      (selectedRows : List Nat)
  | select (name lbl : String) (values selectedValues : List String)
      (allowMultiple : Bool)

/-- The identifier of a field: the first argument of every `addX` call, used
as the key in `fieldValues`. -/
def PromptField.name : PromptField → String
  | .label n _ => n
  | .textField n _ _ => n
  | .textView n _ _ => n
  | .passwordField n _ _ => n
  | .switchField n _ _ => n
  | .datePicker n _ _ => n
  | .picker n _ _ _ => n
  | .select n _ _ _ _ => n

/-- A runtime value stored in `fieldValues` (`Prompt.d.ts` line 62 declares
the dictionary with `any` values; the kinds below are the ones the `addX`
documentation describes).  A JavaScript `Date` is embedded as an `Int`. -/
inductive FieldValue
  | str (s : String)
  | bool (b : Bool)
  | date (d : Int)
  | indices (l : List Nat)
  | strings (l : List String)

/-- A button descriptor appended by `addButton(name, value?, isDefault?)`
(`Prompt.d.ts` line 189), with the declared parameter types: `value` and
`isDefault` are optional, `value` is a string. -/
structure PromptButton where
  name : String
  value : Option String
  isDefault : Option Bool

/-- The `Prompt` builder of `Prompt.d.ts` lines 46-197: configuration
properties, the ordered field and button lists accumulated by the `addX`
calls, and the post-`show` result properties `fieldValues` (embedded as an
association list) and `buttonPressed`. -/
structure Prompt where
  title : String
  message : String
  isCancellable : Bool
  fields : List PromptField
  buttons : List PromptButton
  fieldValues : List (String × FieldValue)
  buttonPressed : String

/-- `Prompt.create()` (`Prompt.d.ts` line 196): a fresh prompt;
`isCancellable` defaults to `true` per the documentation on line 55. -/
def Prompt.create : Prompt :=
  ⟨"", "", true, [], [], [], ""⟩

/-- `addLabel` (`Prompt.d.ts` lines 75-79): appends a label field. -/
def Prompt.addLabel (p : Prompt) (name lbl : String) : Prompt :=
  { p with fields := p.fields ++ [.label name lbl] }

/-- `addTextField` (`Prompt.d.ts` lines 88-99): appends a text field. -/
def Prompt.addTextField (p : Prompt) (name lbl initialText : String) : Prompt :=
  { p with fields := p.fields ++ [.textField name lbl initialText] }

/-- `addTextView` (`Prompt.d.ts` lines 108-119): appends a text view. -/
def Prompt.addTextView (p : Prompt) (name lbl initialText : String) : Prompt :=
  { p with fields := p.fields ++ [.textView name lbl initialText] }

/-- `addPasswordField` (`Prompt.d.ts` line 124): appends a password field. -/
def Prompt.addPasswordField (p : Prompt) (name lbl initialValue : String) :
    Prompt :=
  { p with fields := p.fields ++ [.passwordField name lbl initialValue] }

/-- `addSwitch` (`Prompt.d.ts` line 132): appends an on/off toggle. -/
def Prompt.addSwitch (p : Prompt) (name lbl : String) (initialValue : Bool) :
    Prompt :=
  { p with fields := p.fields ++ [.switchField name lbl initialValue] }

/-- `addDatePicker` (`Prompt.d.ts` lines 141-151): appends a date picker. -/
def Prompt.addDatePicker (p : Prompt) (name lbl : String) (initialDate : Int) :
    Prompt :=
  { p with fields := p.fields ++ [.datePicker name lbl initialDate] }

/-- `addPicker` (`Prompt.d.ts` lines 160-165): appends a multi-column
picker. -/
def Prompt.addPicker (p : Prompt) (name lbl : String)
    (columns : List (List String)) (selectedRows : List Nat) : Prompt :=
  { p with fields := p.fields ++ [.picker name lbl columns selectedRows] }

/-- `addSelect` (`Prompt.d.ts` lines 175-181): appends a select control. -/
def Prompt.addSelect (p : Prompt) (name lbl : String)
    (values selectedValues : List String) (allowMultiple : Bool) : Prompt :=
  { p with fields := p.fields ++ [.select name lbl values selectedValues allowMultiple] }

/-- `addButton` (`Prompt.d.ts` line 189): appends a button descriptor. -/
def Prompt.addButton (p : Prompt) (name : String) (value : Option String)
    (isDefault : Option Bool) : Prompt :=
  { p with buttons := p.buttons ++ [⟨name, value, isDefault⟩] }

/-- Modelled from the spec: the user's interaction with the displayed dialog.
The host implementation of the dialog UI is not part of the repository; per
the spec each control yields a value of its own kind, so the interaction is
one kind-appropriate choice per field position (`choice` selects indices into
a select control's `values` array). -/
structure UserInput where
  text : Nat → String
  toggle : Nat → Bool
  date : Nat → Int
  rows : Nat → List Nat
  choice : Nat → List Nat

/-- Modelled from the spec: how the host dismisses a `show()` call — either
the user cancels, or presses button number `idx` after interacting with the
fields. -/
inductive DialogOutcome
  | cancel
  | press (idx : Nat) (input : UserInput)

/-- Modelled from the spec: which dismissals the host can actually deliver.
Cancellation exists only when `isCancellable` is `true` (`Prompt.d.ts` line
55: with `false` no cancel button is displayed and the user must select one
of the buttons); a press names an existing button. -/
def DialogOutcome.valid (p : Prompt) : DialogOutcome → Bool
  | .cancel => p.isCancellable
  | .press idx _ => decide (idx < p.buttons.length)

/-- Modelled from the spec: the current contents of field `f`, displayed at
position `i`, after the interaction `u`.  The value kind is determined by the
field kind; for a select control the chosen values are drawn from its
`values` array. -/
def fieldContent (u : UserInput) (i : Nat) : PromptField → FieldValue
  | .label _ lbl => .str lbl
  | .textField _ _ _ => .str (u.text i)
  | .textView _ _ _ => .str (u.text i)
  | .passwordField _ _ _ => .str (u.text i)
  | .switchField _ _ _ => .bool (u.toggle i)
  | .datePicker _ _ _ => .date (u.date i)
  | .picker _ _ _ _ => .indices (u.rows i)
  | .select _ _ values _ _ => .strings ((u.choice i).filterMap fun j => values[j]?)

/-- Modelled from the spec: the `fieldValues` dictionary assembled by the
host after `show()` — one entry per added field, keyed by the field's name,
holding that field's current contents. -/
def fieldContents (u : UserInput) : Nat → List PromptField →
    List (String × FieldValue)
  | _, [] => []
  | i, f :: fs => (f.name, fieldContent u i f) :: fieldContents u (i + 1) fs

/-- Modelled from the spec: `show()` (`Prompt.d.ts` line 194).  The host
suspends the script and returns `false` on cancellation, `true` when a
button is pressed; on a press it populates `fieldValues` and sets
`buttonPressed` to the pressed button's `value` when one was supplied, its
`name` otherwise. -/
def Prompt.show (p : Prompt) (o : DialogOutcome) : Prompt × Bool :=
  match o with
  | .cancel => (p, false)
  | .press idx u =>
    let pressed := match p.buttons[idx]? with
      | some b => b.value.getD b.name
      | none => p.buttonPressed
    ({ p with
        fieldValues := fieldContents u 0 p.fields
        buttonPressed := pressed }, true)

/-- The `Editor` singleton of `Editor.d.ts` lines 16-141, as state: the
declared boolean properties, the full text buffer, and the current selection
(`location`/`length` character offsets, TypeScript numbers embedded as
integers). -/
structure Editor where
  focusModeEnabled : Bool
  linkModeEnabled : Bool
  isActive : Bool
  text : String
  selLocation : Int
  selLength : Int

/-- Modelled from the spec: the host's resolution of a blocking
`arrange(text)` dialog — the user either cancels or confirms ("Done") with
an edited text.  The dialog itself lives in the host, not the repository. -/
inductive ArrangeOutcome
  | cancel
  | done (edited : String)

/-- Modelled from the spec: `arrange(text)` (`Editor.d.ts` line 78) returns
the arranged text when the user taps "Done" and the original text when the
user cancels. -/
def Editor.arrange (text : String) : ArrangeOutcome → String
  | .cancel => text
  | .done edited => edited

/-- Modelled from the spec: the host's resolution of a blocking `dictate`
dialog — cancellation, or acceptance of a recognized text. -/
inductive DictateOutcome
  | cancel
  | recognized (result : String)

/-- Modelled from the spec: `dictate(locale?)` (`Editor.d.ts` line 95)
returns the accepted dictation text, or the empty string when the user
cancels.  The optional locale only selects the recognizer's language. -/
def Editor.dictate (locale : Option String) : DictateOutcome → String
  | .cancel => ""
  | .recognized result => result

/-- Modelled from the spec: `setSelectedRange(location, length)`
(`Editor.d.ts` line 130) updates the stored selection to the passed start
location and length; bounds checking is the host's responsibility. -/
def Editor.setSelectedRange (e : Editor) (location len : Int) : Editor :=
  { e with selLocation := location, selLength := len }

/-- Modelled from the spec: `getSelectedRange()` (`Editor.d.ts` line 125)
reads back the current selection as the 2-element `[location, length]`
sequence of the `selectionRange` alias (`Editor.d.ts` line 4). -/
def Editor.getSelectedRange (e : Editor) : List Int :=
  [e.selLocation, e.selLength]

/-- Modelled from the spec: the start offset of the line containing offset
`pos` — `pos` minus the run of non-newline characters just before it. -/
def lineStart (cs : List Char) (pos : Nat) : Nat :=
  pos - ((cs.take pos).reverse.takeWhile fun c => c ≠ '\n').length

/-- Modelled from the spec: the end offset of the line containing offset
`pos` — `pos` plus the run of non-newline characters from it onward. -/
def lineEnd (cs : List Char) (pos : Nat) : Nat :=
  pos + ((cs.drop pos).takeWhile fun c => c ≠ '\n').length

/-- Modelled from the spec: `getSelectedLineRange()` (`Editor.d.ts` line
120) returns the current selection extended to the beginning and end of the
lines it encompasses, again as a `[location, length]` pair. -/
def Editor.getSelectedLineRange (e : Editor) : List Int :=
  let cs := e.text.toList
  let s := lineStart cs e.selLocation.toNat
  let t := lineEnd cs (e.selLocation + e.selLength).toNat
  [(s : Int), (t : Int) - (s : Int)]

/-- The return types that occur in the two declaration files.  No error or
exception type is declared anywhere in the source, so none appears here. -/
inductive TsType
  | void
  | boolean
  | string
  | number
  | selectionRangeTy
  | promptTy
deriving DecidableEq

/-- One declared method: its name and return type. -/
structure MethodSig where
  name : String
  ret : TsType
deriving DecidableEq

/-- Every method of `declare class Editor` (`Editor.d.ts` lines 16-141),
in source order, with its declared return type. -/
def Editor.methodSigs : List MethodSig :=
  [⟨"new", .void⟩, ⟨"load", .void⟩, ⟨"save", .void⟩, ⟨"undo", .void⟩,
   ⟨"redo", .void⟩, ⟨"activate", .void⟩, ⟨"deactivate", .void⟩,
   ⟨"showArrange", .void⟩, ⟨"arrange", .string⟩, ⟨"showFind", .void⟩,
   ⟨"showDictate", .void⟩, ⟨"dictate", .string⟩, ⟨"getText", .string⟩,
   ⟨"setText", .void⟩, ⟨"getSelectedText", .string⟩,
   ⟨"setSelectedText", .void⟩, ⟨"getSelectedLineRange", .selectionRangeTy⟩,
   ⟨"getSelectedRange", .selectionRangeTy⟩, ⟨"setSelectedRange", .void⟩,
   ⟨"getTextInRange", .string⟩, ⟨"setTextInRange", .void⟩]

/-- Every method of `declare class Prompt` (`Prompt.d.ts` lines 46-197),
in source order, with its declared return type (including the static
`create`). -/
def Prompt.methodSigs : List MethodSig :=
  [⟨"addLabel", .void⟩, ⟨"addTextField", .void⟩, ⟨"addTextView", .void⟩,
   ⟨"addPasswordField", .void⟩, ⟨"addSwitch", .void⟩,
   ⟨"addDatePicker", .void⟩, ⟨"addPicker", .void⟩, ⟨"addSelect", .void⟩,
   ⟨"addButton", .void⟩, ⟨"show", .boolean⟩, ⟨"create", .promptTy⟩]

/-- The declared type of the `buttonPressed` property (`Prompt.d.ts` line
67: `buttonPressed: string`). -/
def Prompt.buttonPressedType : TsType := .string

/-- The declared type of `addButton`'s optional `value` parameter
(`Prompt.d.ts` line 189: `value?: string`). -/
def Prompt.addButtonValueType : TsType := .string

/-- `v` has the value kind the `addX` documentation assigns to the field
kind of `f`: a string for labels and text/password fields, a boolean for
switches, a date for date pickers, an array of indices for pickers, and for
selects an array of strings drawn from the control's `values` array. -/
def FieldValue.typedFor : PromptField → FieldValue → Prop
  | .label _ _, .str _ => True
  | .textField _ _ _, .str _ => True
  | .textView _ _ _, .str _ => True
  | .passwordField _ _ _, .str _ => True
  | .switchField _ _ _, .bool _ => True
  | .datePicker _ _ _, .date _ => True
  | .picker _ _ _ _, .indices _ => True
  | .select _ _ values _ _, .strings ss => ∀ s ∈ ss, s ∈ values
  | _, _ => False

/-- A sample configured prompt, built with the `addX` calls, for concrete
evaluations. -/
def samplePrompt : Prompt :=
  ((((Prompt.create.addTextField "text1" "Text" "").addSwitch "sw" "Switch"
      false).addSelect "sel" "Select" ["a", "b"] ["a"] false).addButton "OK"
    none none)

/-- A sample dialog interaction for concrete evaluations. -/
def sampleInput : UserInput :=
  ⟨fun _ => "hello", fun _ => true, fun _ => 0, fun _ => [0], fun _ => [1]⟩

/-- A sample editor state for concrete evaluations. -/
def sampleEditor : Editor :=
  ⟨false, false, true, "ab\ncd", 0, 0⟩

theorem fieldContents_map_fst (u : UserInput) :
    ∀ (i : Nat) (fs : List PromptField),
      (fieldContents u i fs).map Prod.fst = fs.map PromptField.name
  | _, [] => rfl
  | i, f :: fs => by
    simp [fieldContents, fieldContents_map_fst u (i + 1) fs]

theorem fieldContent_typedFor (u : UserInput) (i : Nat) (f : PromptField) :
    FieldValue.typedFor f (fieldContent u i f) := by
  cases f
  case select name lbl values sel multi =>
    intro s hs
    rw [List.mem_filterMap] at hs
    obtain ⟨j, _, hj⟩ := hs
    exact List.getElem?_mem hj
  all_goals exact trivial

theorem fieldContents_forall₂ (u : UserInput) :
    ∀ (i : Nat) (fs : List PromptField),
      List.Forall₂ (fun f kv => kv.1 = f.name ∧ FieldValue.typedFor f kv.2)
        fs (fieldContents u i fs)
  | _, [] => .nil
  | i, f :: fs =>
    .cons ⟨rfl, fieldContent_typedFor u i f⟩
      (fieldContents_forall₂ u (i + 1) fs)

/-- C1: `show()` returns `false` if and only if the dialog was cancelled and
`true` whenever a non-cancel button was pressed; when `isCancellable` is
`false`, cancellation is unreachable, so `show()` returns `true`. -/
theorem Prompt.show_false_iff_cancelled (p : Prompt) (o : DialogOutcome)
    (h : DialogOutcome.valid p o = true) :
    ((Prompt.show p o).2 = false ↔ o = DialogOutcome.cancel) ∧
      (p.isCancellable = false → (Prompt.show p o).2 = true) := by
  cases o with
  | cancel =>
    refine ⟨by simp [Prompt.show], fun hc => ?_⟩
    simp only [DialogOutcome.valid] at h
    rw [hc] at h
    cases h
  | press idx u =>
    exact ⟨by simp [Prompt.show], fun _ => by simp [Prompt.show]⟩

/-- Witness for C1 at a concrete cancellable prompt and a cancel outcome. -/
theorem Prompt.show_false_iff_cancelled_witness :
    DialogOutcome.valid samplePrompt DialogOutcome.cancel = true ∧
      (((Prompt.show samplePrompt DialogOutcome.cancel).2 = false ↔
          DialogOutcome.cancel = DialogOutcome.cancel) ∧
        (samplePrompt.isCancellable = false →
          (Prompt.show samplePrompt DialogOutcome.cancel).2 = true)) :=
  ⟨rfl, Prompt.show_false_iff_cancelled samplePrompt DialogOutcome.cancel rfl⟩

/-- C2: after a successful `show()`, the keys of `fieldValues` are exactly
the names of the fields added before `show()`, in order, and each stored
value has the kind determined by its field (string, boolean, date, index
array, or strings drawn from a select's `values`). -/
theorem Prompt.fieldValues_keys_and_types (p : Prompt) (idx : Nat)
    (u : UserInput)
    (h : DialogOutcome.valid p (DialogOutcome.press idx u) = true) :
    ((Prompt.show p (DialogOutcome.press idx u)).1.fieldValues.map Prod.fst =
        p.fields.map PromptField.name) ∧
      List.Forall₂ (fun f kv => kv.1 = f.name ∧ FieldValue.typedFor f kv.2)
        p.fields (Prompt.show p (DialogOutcome.press idx u)).1.fieldValues := by
  exact ⟨fieldContents_map_fst u 0 p.fields, fieldContents_forall₂ u 0 p.fields⟩

/-- Witness for C2 at a concrete prompt with a text field, a switch and a
select control. -/
theorem Prompt.fieldValues_keys_and_types_witness :
    DialogOutcome.valid samplePrompt (DialogOutcome.press 0 sampleInput) =
        true ∧
      (((Prompt.show samplePrompt
              (DialogOutcome.press 0 sampleInput)).1.fieldValues.map
            Prod.fst =
          samplePrompt.fields.map PromptField.name) ∧
        List.Forall₂ (fun f kv => kv.1 = f.name ∧ FieldValue.typedFor f kv.2)
          samplePrompt.fields
          (Prompt.show samplePrompt
              (DialogOutcome.press 0 sampleInput)).1.fieldValues) :=
  ⟨rfl, Prompt.fieldValues_keys_and_types samplePrompt 0 sampleInput rfl⟩

/-- C3: on cancellation `arrange(text)` returns the original text unchanged,
and a confirmed dialog in which the user made no edits produces the very
same return value, so the two are indistinguishable by return value. -/
theorem Editor.arrange_cancel_returns_original (text : String) :
    Editor.arrange text ArrangeOutcome.cancel = text ∧
      Editor.arrange text (ArrangeOutcome.done text) =
        Editor.arrange text ArrangeOutcome.cancel :=
  ⟨rfl, rfl⟩

/-- C4: `dictate(locale?)` returns the empty string when the user cancels
and the recognized text when the user accepts, for every locale. -/
theorem Editor.dictate_cancel_empty (locale : Option String) :
    Editor.dictate locale DictateOutcome.cancel = "" ∧
      ∀ s, Editor.dictate locale (DictateOutcome.recognized s) = s :=
  ⟨rfl, fun _ => rfl⟩

/-- C5: `setSelectedRange(location, length)` followed by
`getSelectedRange()` returns `[location, length]` when the range lies within
the buffer bounds. -/
theorem Editor.setSelectedRange_getSelectedRange_roundtrip (e : Editor)
    (location len : Int) (h0 : 0 ≤ location) (h1 : 0 ≤ len)
    (h2 : location + len ≤ (e.text.length : Int)) :
    Editor.getSelectedRange (Editor.setSelectedRange e location len) =
      [location, len] :=
  rfl

/-- Witness for C5 at a concrete editor state and an in-bounds range. -/
theorem Editor.setSelectedRange_getSelectedRange_roundtrip_witness :
    (0 : Int) ≤ 1 ∧ (0 : Int) ≤ 2 ∧
      (1 + 2 : Int) ≤ (sampleEditor.text.length : Int) ∧
      Editor.getSelectedRange (Editor.setSelectedRange sampleEditor 1 2) =
        [1, 2] :=
  ⟨by decide, by decide, by decide,
    Editor.setSelectedRange_getSelectedRange_roundtrip sampleEditor 1 2
      (by decide) (by decide) (by decide)⟩

/-- C6: the `selectionRange` values produced by the range accessors are
2-element integer sequences, with `getSelectedRange` yielding exactly the
stored `[location, length]` pair. -/
theorem Editor.selectionRange_two_elements (e : Editor) :
    (Editor.getSelectedRange e).length = 2 ∧
      (Editor.getSelectedLineRange e).length = 2 ∧
      Editor.getSelectedRange e = [e.selLocation, e.selLength] :=
  ⟨rfl, rfl, rfl⟩

/-- C7: every method declared on `Editor` and `Prompt` returns a plain
value (boolean, string, selectionRange, or Prompt) or nothing (void); no
error or failure type occurs among the declared return types, including for
`setSelectedRange`, `getTextInRange` and `setTextInRange`. -/
theorem no_error_signaling (m : MethodSig)
    (h : m ∈ Editor.methodSigs ++ Prompt.methodSigs) :
    m.ret = TsType.void ∨ m.ret = TsType.boolean ∨ m.ret = TsType.string ∨
      m.ret = TsType.selectionRangeTy ∨ m.ret = TsType.promptTy := by
  fin_cases h <;> simp

/-- Witness for C7 at the `setSelectedRange` method. -/
theorem no_error_signaling_witness :
    (⟨"setSelectedRange", TsType.void⟩ : MethodSig) ∈
        Editor.methodSigs ++ Prompt.methodSigs ∧
      ((⟨"setSelectedRange", TsType.void⟩ : MethodSig).ret = TsType.void ∨
        (⟨"setSelectedRange", TsType.void⟩ : MethodSig).ret =
          TsType.boolean ∨
        (⟨"setSelectedRange", TsType.void⟩ : MethodSig).ret =
          TsType.string ∨
        (⟨"setSelectedRange", TsType.void⟩ : MethodSig).ret =
          TsType.selectionRangeTy ∨
        (⟨"setSelectedRange", TsType.void⟩ : MethodSig).ret =
          TsType.promptTy) :=
  ⟨by decide, no_error_signaling ⟨"setSelectedRange", TsType.void⟩ (by decide)⟩

/-- C8: `keyboardTypes` admits exactly the nine listed values and
`capitalizationTypes` exactly the three listed values: every alternative is
in the enumeration list, the lists map without repetition onto exactly the
listed string literals. -/
theorem optionTypes_exact :
    keyboardTypes.all.map keyboardTypes.toStr =
        ["default", "numbersAndPunctuation", "numberPad", "phonePad",
         "namePhonePad", "emailAddress", "decimalPad", "webSearch", "URL"] ∧
      (∀ k : keyboardTypes, k ∈ keyboardTypes.all) ∧
      (keyboardTypes.all.map keyboardTypes.toStr).Nodup ∧
      capitalizationTypes.all.map capitalizationTypes.toStr =
        ["none", "sentences", "words"] ∧
      (∀ c : capitalizationTypes, c ∈ capitalizationTypes.all) ∧
      (capitalizationTypes.all.map capitalizationTypes.toStr).Nodup := by
  refine ⟨rfl, ?_, by decide, rfl, ?_, by decide⟩
  · intro k; cases k <;> decide
  · intro c; cases c <;> decide

/-- C9: `showFind()` is part of the declared `Editor` interface and returns
nothing (void). -/
theorem Editor.showFind_declared :
    (⟨"showFind", TsType.void⟩ : MethodSig) ∈ Editor.methodSigs := by
  decide

/-- C10: after `show()`, `buttonPressed` carries the pressed button's
string `value` when one was supplied and its `name` otherwise — a value of
the declared type `string`, never a number, matching the declared types
`buttonPressed: string` and `value?: string` rather than the numeric example
in `addButton`'s prose. -/
theorem Prompt.buttonPressed_string (p : Prompt) (idx : Nat) (u : UserInput)
    (b : PromptButton) (h : p.buttons[idx]? = some b) :
    (Prompt.show p (DialogOutcome.press idx u)).1.buttonPressed =
        b.value.getD b.name ∧
      Prompt.buttonPressedType = TsType.string ∧
      Prompt.addButtonValueType = TsType.string ∧
      Prompt.buttonPressedType ≠ TsType.number := by
  refine ⟨?_, rfl, rfl, by decide⟩
  simp [Prompt.show, h]

/-- Witness for C10 at the sample prompt's single button. -/
theorem Prompt.buttonPressed_string_witness :
    samplePrompt.buttons[0]? = some ⟨"OK", none, none⟩ ∧
      ((Prompt.show samplePrompt
            (DialogOutcome.press 0 sampleInput)).1.buttonPressed =
          (Option.none (α := String)).getD "OK" ∧
        Prompt.buttonPressedType = TsType.string ∧
        Prompt.addButtonValueType = TsType.string ∧
        Prompt.buttonPressedType ≠ TsType.number) :=
  ⟨rfl, Prompt.buttonPressed_string samplePrompt 0 sampleInput
    ⟨"OK", none, none⟩ rfl⟩

end Drafts
